import Mathlib

/-!
Verification development for the Pennsieve LLM summarizer processor.

The program is a sequential batch job (main.go): it checks configuration,
checks that the LLM governor collaborator is available, lists the files
matching *.json in the input directory, and for each file in turn reads it,
validates that its contents parse as JSON, sends one summarization request
to the external LLM gateway, and renders the returned summary into a PDF
file named by the input base name plus the fixed suffix -summary.pdf.

External collaborators (the filesystem, the JSON parser of the standard
library, the gateway client library) are modelled as oracles carried in a
World structure; the control flow, the request construction, and the PDF
layout are embedded from the source. The run is summarised by a trace
(outputs written, gateway requests issued, files read, whether the
directory listing happened) so that the specified properties become
statements about that trace.
-/

namespace Summarizer

/-- Models filepath.Join of a cleaned directory path and a base file name,
as used by the source (both arguments are nonempty and free of trailing
separators in every call site). -/
def joinPath (dir name : String) : String := dir ++ "/" ++ name

/-- Models Go filepath.Ext on a base file name: the suffix starting at the
final dot, or empty when the name has no dot. -/
def filepathExt (s : String) : String :=
  let rev := s.data.reverse
  if rev.contains '.' then
    String.mk ('.' :: (rev.takeWhile (fun c => c ≠ '.')).reverse)
  else ""

/-- Models Go strings.TrimSuffix: drop the suffix when present, otherwise
return the string unchanged. -/
def trimSuffix (s suf : String) : String :=
  if suf.data.isSuffixOf s.data then s.dropRight suf.length else s

/-- Base name of an input file as derived twice by the source (docName and
baseName in main.go): strings.TrimSuffix(filepath.Base(jsonFile),
filepath.Ext(jsonFile)), where filepath.Base of the joined path is the
listed base name again. -/
def baseNameOf (name : String) : String :=
  trimSuffix name (filepathExt name)

/-- Output path derived for an input file (main.go line 140):
filepath.Join(outputDir, baseName + "-summary.pdf"). -/
def outPathOf (outputDir name : String) : String :=
  joinPath outputDir (baseNameOf name ++ "-summary.pdf")

/-- Alphabet of standard base64 (RFC 4648), as used by
encoding/base64 StdEncoding in the source. -/
def b64Alphabet : List Char :=
  "ABCDEFGHIJKLMNOPQRSTUVWXYZabcdefghijklmnopqrstuvwxyz0123456789+/".data

def b64Char (n : Nat) : Char := b64Alphabet.getD n 'A'

/-- Standard base64 of a byte list, with = padding, three bytes at a time. -/
def base64EncodeBytes : List Nat → List Char
  | [] => []
  | [b1] => [b64Char (b1 / 4), b64Char (b1 % 4 * 16), '=', '=']
  | [b1, b2] => [b64Char (b1 / 4), b64Char (b1 % 4 * 16 + b2 / 16), b64Char (b2 % 16 * 4), '=']
  | b1 :: b2 :: b3 :: rest =>
      b64Char (b1 / 4) :: b64Char (b1 % 4 * 16 + b2 / 16) ::
        b64Char (b2 % 16 * 4 + b3 / 64) :: b64Char (b3 % 64) :: base64EncodeBytes rest

/-- UTF-8 bytes of a string, as natural numbers below 256; the encoding of
each character follows String.utf8EncodeChar of the standard library. -/
def stringUTF8Bytes (s : String) : List Nat :=
  (s.data.flatMap String.utf8EncodeChar).map UInt8.toNat

/-- Models base64.StdEncoding.EncodeToString applied to the UTF-8 bytes of
the file contents. -/
def base64StdEncode (s : String) : String :=
  String.mk (base64EncodeBytes (stringUTF8Bytes s))

/-- Model identifier constants of the gateway client library; the source
only ever uses llm.ModelHaiku45. -/
inductive ModelId where
  | haiku45
  deriving DecidableEq

/-- Content blocks of a gateway message: an attached document
(llm.DocumentBlock with a name, a format tag and base64 data) or inline
text (llm.TextBlock). -/
inductive Block where
  | document (name format dataB64 : String)
  | text (s : String)
  deriving DecidableEq

/-- Message of a gateway request: a role plus content blocks. -/
structure Message where
  role : String
  blocks : List Block
  deriving DecidableEq

/-- Models llm.UserMessage, which wraps content blocks in a user-role
message. -/
def userMessage (bs : List Block) : Message := ⟨ "user", bs ⟩

/-- Models llm.InvokeRequest as constructed by the source. -/
structure InvokeRequest where
  model : ModelId
  system : String
  maxTokens : Nat
  messages : List Message
  deriving DecidableEq

/-- Models llm.GovernorError: an error code and message plus the
conditions tested by IsBudgetExceeded and IsModelNotAllowed, and the
allowed-model list reported alongside a model-not-allowed error. -/
structure GovernorError where
  code : String
  msg : String
  budgetExceeded : Bool
  modelNotAllowed : Bool
  allowedModels : List String
  deriving DecidableEq

/-- Possible results of the gateway collaborator call gov.Invoke: a
response text, a governor error (recognised by llm.IsGovernorError), or
any other transport error. Usage and cost metadata of a successful
response are only logged by the source and are not modelled. -/
inductive InvokeOutcome where
  | ok (text : String)
  | governorErr (ge : GovernorError)
  | otherErr
  deriving DecidableEq

/-- Drawing operations issued by generatePDF on the fpdf document, in
order. The separator rule Line(10, GetY, 200, GetY) is recorded as an
operation at the current cursor; the cursor coordinate itself is internal
to the fpdf library and not modelled. -/
inductive PdfOp where
  | setAutoPageBreak (auto : Bool) (margin : Nat)
  | addPage
  | setFont (family style : String) (size : Nat)
  | cellFormat (w h : Nat) (txt border : String) (lnDir : Nat) (align : String)
  | lnBreak (h : Nat)
  | setTextColor (r g b : Nat)
  | setDrawColor (r g b : Nat)
  | separatorLine
  | multiCell (w lineH : Nat) (txt border align : String)
  deriving DecidableEq

/-- Embeds generatePDF from main.go: the sequence of fpdf operations that
lay out the report, paired with the path passed to OutputFileAndClose.
The argument now stands for the formatted value of time.Now().UTC() read
when the metadata line is produced. -/
def generatePDF (now path title body : String) : String × List PdfOp :=
  ⟨ path,
    [ .setAutoPageBreak true 20,
      .addPage,
      .setFont "Helvetica" "B" 18,
      .cellFormat 0 12 ("Dataset Summary: " ++ title) "" 1 "L",
      .lnBreak 4,
      .setFont "Helvetica" "" 9,
      .setTextColor 128 128 128,
      .cellFormat 0 5 ("Generated " ++ now ++ " by Pennsieve LLM Summarizer") "" 1 "L",
      .lnBreak 6,
      .setDrawColor 200 200 200,
      .separatorLine,
      .lnBreak 6,
      .setFont "Helvetica" "" 11,
      .setTextColor 0 0 0,
      .multiCell 0 6 body "" "L" ] ⟩

/-- Texts of the visible text elements of a drawn document, in drawing
order: the texts of CellFormat and MultiCell operations. -/
def visibleTexts : List PdfOp → List String
  | [] => []
  | .cellFormat _ _ txt _ _ _ :: rest => txt :: visibleTexts rest
  | .multiCell _ _ txt _ _ :: rest => txt :: visibleTexts rest
  | _ :: rest => visibleTexts rest

/-- Output filesystem: a map from paths to the drawn documents stored at
them. -/
def OutFS : Type := String → Option (List PdfOp)

/-- Models the effect of fpdf OutputFileAndClose through os.Create on the
output filesystem: the file at the path is created or truncated and then
holds the serialized document; writing over an existing file is not an
error. -/
def fsWrite (fs : OutFS) (path : String) (doc : List PdfOp) : OutFS :=
  fun q => if q = path then some doc else fs q

/-- One renderer invocation as a filesystem transformer: generatePDF
followed by the serializing write to its path. -/
def renderReport (fs : OutFS) (now path title body : String) : OutFS :=
  fsWrite fs path (generatePDF now path title body).2

/-- External collaborators of one run, as oracles: the base names listed
in the input directory, the filesystem read, the JSON well-formedness
verdict of json.Unmarshal, the gateway collaborator, the process
environment, and the formatted current UTC time used by the renderer. -/
structure World where
  inputFiles : List String
  readFile : String → Option String
  jsonWellFormed : String → Bool
  invoke : InvokeRequest → InvokeOutcome
  env : String → Option String
  now : String

/-- Models os.Getenv: the value of a set variable, empty string when
unset. -/
def getEnvStr (env : String → Option String) (k : String) : String :=
  (env k).getD ""

/-- Models os.Setenv on the environment map. -/
def setEnv (env : String → Option String) (k v : String) : String → Option String :=
  fun q => if q = k then some v else env q

/-- Models llm.NewGovernor().Available() of the gateway client library:
per the fatal message in the source and the README, the governor is
available exactly when the LLM_GOVERNOR_FUNCTION environment variable is
set to a nonempty value. -/
def governorAvailable (w : World) : Bool :=
  getEnvStr w.env "LLM_GOVERNOR_FUNCTION" ≠ ""

/-- Base names matched by filepath.Glob(filepath.Join(inputDir, "*.json")):
the listed names whose suffix is .json (the * of the pattern matches any
run of non-separator characters, including the empty one). Glob also
sorts its result; no property here depends on the order, so the listing
order is kept. -/
def globNames (w : World) : List String :=
  w.inputFiles.filter (fun name => ".json".data.isSuffixOf name.data)

/-- Fixed system instruction of every gateway request (main.go). -/
def systemInstruction : String :=
  "You are a data analyst. Summarize datasets clearly and concisely. Use plain text paragraphs, not markdown."

/-- Fixed user instruction sent with the attached document (main.go). -/
def attachedPrompt : String :=
  "The attached JSON document represents a dataset. Please provide a comprehensive summary that includes:\n\n1. Overview: What this dataset contains and its purpose\n2. Structure: The key fields and their types\n3. Content Summary: A description of the data values and any patterns\n4. Potential Uses: What this dataset could be used for"

/-- Gateway request constructed for one input file (main.go lines
100 to 120): fixed Haiku model, fixed system instruction, 2048 max output
tokens, and one user message holding the attached document block (named
by the base name without its extension, format txt, standard base64 of
the raw bytes) and the static instruction text. -/
def buildRequest (name data : String) : InvokeRequest :=
  ⟨ ModelId.haiku45, systemInstruction, 2048,
    [ userMessage
        [ Block.document (baseNameOf name) "txt" (base64StdEncode data),
          Block.text attachedPrompt ] ] ⟩

/-- Terminal outcome of a run; each fatal constructor corresponds to one
log.Fatal site of the source, carrying the data interpolated into its
message. -/
inductive Outcome where
  | success
  | configError
  | governorUnavailable
  | noJsonFiles
  | readError (path : String)
  | invalidJson (path : String)
  | budgetExceededErr (msg : String)
  | modelNotAllowedErr (allowed : List String)
  | governorOtherErr (code msg : String)
  | invokeFailed
  deriving DecidableEq

def Outcome.isFatal : Outcome → Bool
  | .success => false
  | _ => true

/-- Trace of the per-file loop: the terminal outcome, the PDF files
written (path and drawn document, in order), the gateway requests issued
(in order), and the paths passed to os.ReadFile (in order). -/
structure FilesResult where
  outcome : Outcome
  outputs : List (String × List PdfOp)
  gatewayCalls : List InvokeRequest
  filesRead : List String
  deriving DecidableEq

/-- Embeds the per-file loop of runProcessor (main.go lines 82 to 147):
for each matched name in turn, read the file, validate the JSON, invoke
the gateway once, and render the summary to the derived output path; any
failure is fatal and stops the run, leaving the work of earlier files in
place. The rendering write itself cannot fail in this model (the output
filesystem is total), matching the success path of OutputFileAndClose. -/
def processFiles (w : World) (inputDir outputDir : String) : List String → FilesResult
  | [] => ⟨ .success, [], [], [] ⟩
  | name :: rest =>
    match w.readFile (joinPath inputDir name) with
    | none => ⟨ .readError (joinPath inputDir name), [], [], [joinPath inputDir name] ⟩
    | some data =>
      if w.jsonWellFormed data then
        match w.invoke (buildRequest name data) with
        | .ok text =>
          ⟨ (processFiles w inputDir outputDir rest).outcome,
            generatePDF w.now (outPathOf outputDir name) (baseNameOf name) text
              :: (processFiles w inputDir outputDir rest).outputs,
            buildRequest name data :: (processFiles w inputDir outputDir rest).gatewayCalls,
            joinPath inputDir name :: (processFiles w inputDir outputDir rest).filesRead ⟩
        | .governorErr ge =>
          if ge.budgetExceeded then
            ⟨ .budgetExceededErr ge.msg, [], [buildRequest name data], [joinPath inputDir name] ⟩
          else if ge.modelNotAllowed then
            ⟨ .modelNotAllowedErr ge.allowedModels, [], [buildRequest name data],
              [joinPath inputDir name] ⟩
          else
            ⟨ .governorOtherErr ge.code ge.msg, [], [buildRequest name data],
              [joinPath inputDir name] ⟩
        | .otherErr => ⟨ .invokeFailed, [], [buildRequest name data], [joinPath inputDir name] ⟩
      else ⟨ .invalidJson (joinPath inputDir name), [], [], [joinPath inputDir name] ⟩

/-- Trace of a whole run: the per-file trace plus whether the directory
listing (filepath.Glob) was reached. -/
structure RunResult where
  outcome : Outcome
  outputs : List (String × List PdfOp)
  gatewayCalls : List InvokeRequest
  filesRead : List String
  listedDir : Bool
  deriving DecidableEq

/-- Embeds runProcessor (main.go lines 53 to 150): configuration check,
governor availability check, *.json discovery with its zero-match fatal
error, then the per-file loop. The executionRunID parameter is accepted
and, as in the source body, never consulted (the SDK reads it from the
environment). -/
def runProcessor (w : World) (inputDir outputDir executionRunID : String) : RunResult :=
  if inputDir = "" ∨ outputDir = "" then
    ⟨ .configError, [], [], [], false ⟩
  else if governorAvailable w = false then
    ⟨ .governorUnavailable, [], [], [], false ⟩
  else
    let names := globNames w
    if names.isEmpty then
      ⟨ .noJsonFiles, [], [], [], true ⟩
    else
      let fr := processFiles w inputDir outputDir names
      ⟨ fr.outcome, fr.outputs, fr.gatewayCalls, fr.filesRead, true ⟩

/-- Payload sent by the Step Functions orchestrator when the processor
runs as a Lambda function (main.go LambdaEvent). -/
structure LambdaEvent where
  inputDir : String
  outputDir : String
  executionRunID : String
  computeNodeID : String
  sessionToken : String
  refreshToken : String

def worldWithEnv (w : World) (e : String → Option String) : World :=
  ⟨ w.inputFiles, w.readFile, w.jsonWellFormed, w.invoke, e, w.now ⟩

/-- Embeds handleLambda (main.go lines 45 to 51): first os.Setenv of
EXECUTION_RUN_ID to the value of the event, then the shared pipeline on
the configuration of the event. Returns the mutated environment together
with the run trace. -/
def handleLambda (w : World) (event : LambdaEvent) : (String → Option String) × RunResult :=
  let env2 := setEnv w.env "EXECUTION_RUN_ID" event.executionRunID
  ⟨ env2,
    runProcessor (worldWithEnv w env2) event.inputDir event.outputDir event.executionRunID ⟩

/-- Entry modes of the process (main.go main). -/
inductive Mode where
  | lambdaMode
  | ecsTask
  deriving DecidableEq

/-- Mode detection (main.go lines 31 to 36): the Lambda runtime is
detected by a nonempty AWS_LAMBDA_RUNTIME_API environment value. -/
def detectMode (env : String → Option String) : Mode :=
  if getEnvStr env "AWS_LAMBDA_RUNTIME_API" ≠ "" then .lambdaMode else .ecsTask

/-- Embeds main (main.go lines 30 to 43): Lambda mode dispatches the
incoming event to handleLambda; ECS task mode runs the pipeline on the
INPUT_DIR, OUTPUT_DIR and EXECUTION_RUN_ID environment values and leaves
the environment untouched. -/
def mainRun (w : World) (event : LambdaEvent) : (String → Option String) × RunResult :=
  match detectMode w.env with
  | .lambdaMode => handleLambda w event
  | .ecsTask =>
    ⟨ w.env,
      runProcessor w (getEnvStr w.env "INPUT_DIR") (getEnvStr w.env "OUTPUT_DIR")
        (getEnvStr w.env "EXECUTION_RUN_ID") ⟩

/-- Decidable check that one listed file reads successfully and holds
well-formed JSON. -/
def fileValidB (w : World) (inputDir name : String) : Bool :=
  match w.readFile (joinPath inputDir name) with
  | none => false
  | some data => w.jsonWellFormed data

/-- Decidable check that one listed file passes every per-file stage:
read, JSON validation, and a successful gateway invocation. -/
def processedOkB (w : World) (inputDir name : String) : Bool :=
  match w.readFile (joinPath inputDir name) with
  | none => false
  | some data =>
    w.jsonWellFormed data &&
      match w.invoke (buildRequest name data) with
      | .ok _ => true
      | .governorErr _ => false
      | .otherErr => false

section ExampleWorlds

/-- Example process environment with the governor function set. -/
def exEnv : String → Option String := fun k =>
  if k = "LLM_GOVERNOR_FUNCTION" then some "arn:gov"
  else if k = "INPUT_DIR" then some "/in"
  else if k = "OUTPUT_DIR" then some "/out"
  else if k = "EXECUTION_RUN_ID" then some "run-1"
  else none

/-- Example world: two valid JSON files and one non-JSON file, a gateway
that always answers. -/
def wOk : World :=
  ⟨ [ "patients.json", "notes.txt", "b.json" ],
    fun p =>
      if p = "/in/patients.json" then some "[1]"
      else if p = "/in/b.json" then some "[2]" else none,
    fun s => s ≠ "nope",
    fun _ => .ok "summary text",
    exEnv, "2026-10-11 00:00 UTC" ⟩

/-- Example world: the second JSON file is malformed. -/
def wBad : World :=
  ⟨ [ "a.json", "b.json" ],
    fun p =>
      if p = "/in/a.json" then some "[1]"
      else if p = "/in/b.json" then some "nope" else none,
    fun s => s ≠ "nope",
    fun _ => .ok "summary text",
    exEnv, "2026-10-11 00:00 UTC" ⟩

/-- Example world: the gateway reports a budget-exceeded governor error. -/
def wBudget : World :=
  ⟨ [ "a.json", "b.json" ],
    fun p =>
      if p = "/in/a.json" then some "[1]"
      else if p = "/in/b.json" then some "[2]" else none,
    fun _ => true,
    fun _ => .governorErr ⟨ "budget_exceeded", "monthly budget exhausted", true, false, [] ⟩,
    exEnv, "2026-10-11 00:00 UTC" ⟩

/-- Example world: a directory with no .json file. -/
def wEmpty : World :=
  ⟨ [ "notes.txt" ],
    fun _ => none,
    fun _ => true,
    fun _ => .ok "summary text",
    exEnv, "2026-10-11 00:00 UTC" ⟩

/-- Example environment with LLM_GOVERNOR_FUNCTION unset. -/
def exEnvNoGov : String → Option String := fun k =>
  if k = "INPUT_DIR" then some "/in"
  else if k = "OUTPUT_DIR" then some "/out"
  else none

/-- Example world without the governor function reference. -/
def wNoGov : World :=
  ⟨ [ "patients.json" ],
    fun p => if p = "/in/patients.json" then some "[1]" else none,
    fun _ => true,
    fun _ => .ok "summary text",
    exEnvNoGov, "2026-10-11 00:00 UTC" ⟩

/-- Example Lambda event matching the configuration of exEnv. -/
def exEvent : LambdaEvent :=
  ⟨ "/in", "/out", "run-1", "node-1", "session", "refresh" ⟩

end ExampleWorlds

/-- Unfolding of the per-file loop on the empty listing. -/
theorem processFiles_nil (w : World) (i o : String) :
    processFiles w i o [] = ⟨ .success, [], [], [] ⟩ := rfl

/-- Unfolding of the per-file loop when the read of the first file fails. -/
theorem processFiles_cons_readNone (w : World) (i o name : String) (rest : List String)
    (hrf : w.readFile (joinPath i name) = none) :
    processFiles w i o (name :: rest) =
      ⟨ .readError (joinPath i name), [], [], [joinPath i name] ⟩ := by
  unfold processFiles; rw [hrf]

/-- Unfolding of the per-file loop when the first file holds malformed JSON. -/
theorem processFiles_cons_badJson (w : World) (i o name data : String) (rest : List String)
    (hrf : w.readFile (joinPath i name) = some data)
    (hwf : w.jsonWellFormed data = false) :
    processFiles w i o (name :: rest) =
      ⟨ .invalidJson (joinPath i name), [], [], [joinPath i name] ⟩ := by
  unfold processFiles; rw [hrf]; simp [hwf]

/-- Unfolding of the per-file loop when every stage of the first file succeeds. -/
theorem processFiles_cons_ok (w : World) (i o name data text : String) (rest : List String)
    (hrf : w.readFile (joinPath i name) = some data)
    (hwf : w.jsonWellFormed data = true)
    (hinv : w.invoke (buildRequest name data) = .ok text) :
    processFiles w i o (name :: rest) =
      ⟨ (processFiles w i o rest).outcome,
        generatePDF w.now (outPathOf o name) (baseNameOf name) text
          :: (processFiles w i o rest).outputs,
        buildRequest name data :: (processFiles w i o rest).gatewayCalls,
        joinPath i name :: (processFiles w i o rest).filesRead ⟩ := by
  conv_lhs => unfold processFiles
  rw [hrf]; simp only [hwf, hinv, if_true]

/-- Unfolding of the per-file loop when the gateway reports a governor error on the first file. -/
theorem processFiles_cons_govErr (w : World) (i o name data : String) (ge : GovernorError)
    (rest : List String)
    (hrf : w.readFile (joinPath i name) = some data)
    (hwf : w.jsonWellFormed data = true)
    (hinv : w.invoke (buildRequest name data) = .governorErr ge) :
    processFiles w i o (name :: rest) =
      ⟨ if ge.budgetExceeded then .budgetExceededErr ge.msg
        else if ge.modelNotAllowed then .modelNotAllowedErr ge.allowedModels
        else .governorOtherErr ge.code ge.msg,
        [], [buildRequest name data], [joinPath i name] ⟩ := by
  unfold processFiles; rw [hrf]; simp only [hwf, hinv, if_true]
  by_cases hb : ge.budgetExceeded = true
  · simp [hb]
  · simp only [Bool.not_eq_true] at hb
    by_cases hm : ge.modelNotAllowed = true
    · simp [hb, hm]
    · simp only [Bool.not_eq_true] at hm
      simp [hb, hm]

/-- Unfolding of the per-file loop when the gateway call fails outside the governor error taxonomy. -/
theorem processFiles_cons_otherErr (w : World) (i o name data : String) (rest : List String)
    (hrf : w.readFile (joinPath i name) = some data)
    (hwf : w.jsonWellFormed data = true)
    (hinv : w.invoke (buildRequest name data) = .otherErr) :
    processFiles w i o (name :: rest) =
      ⟨ .invokeFailed, [], [buildRequest name data], [joinPath i name] ⟩ := by
  unfold processFiles; rw [hrf]; simp [hwf, hinv]



/-- On a successful loop, the written outputs are exactly the derived output path of each listed file, in order, and one gateway request was issued per file. -/
theorem processFiles_success_spec (w : World) (i o : String) :
    ∀ names, (processFiles w i o names).outcome = .success →
      (processFiles w i o names).outputs.map Prod.fst = names.map (outPathOf o) ∧
      (processFiles w i o names).gatewayCalls.length = names.length := by
  intro names
  induction names with
  | nil => intro _; exact ⟨ rfl, rfl ⟩
  | cons name rest ih =>
    intro h
    cases hrf : w.readFile (joinPath i name) with
    | none => rw [processFiles_cons_readNone w i o name rest hrf] at h; exact absurd h (by simp)
    | some data =>
      cases hwf : w.jsonWellFormed data with
      | false =>
        rw [processFiles_cons_badJson w i o name data rest hrf hwf] at h
        exact absurd h (by simp)
      | true =>
        cases hinv : w.invoke (buildRequest name data) with
        | ok text =>
          rw [processFiles_cons_ok w i o name data text rest hrf hwf hinv] at h
          rw [processFiles_cons_ok w i o name data text rest hrf hwf hinv]
          have h2 := ih h
          constructor
          · simp only [List.map_cons, h2.1]; rfl
          · simp only [List.length_cons, h2.2]
        | governorErr ge =>
          rw [processFiles_cons_govErr w i o name data ge rest hrf hwf hinv] at h
          by_cases hb : ge.budgetExceeded = true
          · simp [hb] at h
          · by_cases hm : ge.modelNotAllowed = true
            · simp [hb, hm] at h
            · simp [hb, hm] at h
        | otherErr =>
          rw [processFiles_cons_otherErr w i o name data rest hrf hwf hinv] at h
          exact absurd h (by simp)

/-- Every gateway request issued by the loop is the request built for one of the listed files from its read contents. -/
theorem mem_gatewayCalls_shape (w : World) (i o : String) :
    ∀ names req, req ∈ (processFiles w i o names).gatewayCalls →
      ∃ name data, name ∈ names ∧ w.readFile (joinPath i name) = some data ∧
        req = buildRequest name data := by
  intro names
  induction names with
  | nil => intro req h; exact absurd h (by simp [processFiles_nil])
  | cons name rest ih =>
    intro req h
    cases hrf : w.readFile (joinPath i name) with
    | none =>
      rw [processFiles_cons_readNone w i o name rest hrf] at h
      exact absurd h (by simp)
    | some data =>
      cases hwf : w.jsonWellFormed data with
      | false =>
        rw [processFiles_cons_badJson w i o name data rest hrf hwf] at h
        exact absurd h (by simp)
      | true =>
        cases hinv : w.invoke (buildRequest name data) with
        | ok text =>
          rw [processFiles_cons_ok w i o name data text rest hrf hwf hinv] at h
          simp only [List.mem_cons] at h
          cases h with
          | inl heq => exact ⟨ name, data, by simp, hrf, heq ⟩
          | inr hmem =>
            obtain ⟨ n, d, hn, hr, he ⟩ := ih req hmem
            exact ⟨ n, d, by simp [hn], hr, he ⟩
        | governorErr ge =>
          rw [processFiles_cons_govErr w i o name data ge rest hrf hwf hinv] at h
          simp only [List.mem_singleton] at h
          exact ⟨ name, data, by simp, hrf, h ⟩
        | otherErr =>
          rw [processFiles_cons_otherErr w i o name data rest hrf hwf hinv] at h
          simp only [List.mem_singleton] at h
          exact ⟨ name, data, by simp, hrf, h ⟩

/-- The loop on a listing whose front part passes every stage decomposes: the front contributes exactly its outputs, requests and reads, and the outcome is that of the remaining listing. -/
theorem processFiles_append_ok (w : World) (i o : String) :
    ∀ pre l, (pre.all (processedOkB w i)) = true →
      (processFiles w i o (pre ++ l)).outcome = (processFiles w i o l).outcome ∧
      (processFiles w i o (pre ++ l)).outputs.map Prod.fst =
        pre.map (outPathOf o) ++ (processFiles w i o l).outputs.map Prod.fst ∧
      (processFiles w i o (pre ++ l)).gatewayCalls.length =
        pre.length + (processFiles w i o l).gatewayCalls.length ∧
      (processFiles w i o (pre ++ l)).filesRead =
        pre.map (joinPath i) ++ (processFiles w i o l).filesRead := by
  intro pre
  induction pre with
  | nil => intro l _; simp
  | cons name rest ih =>
    intro l hall
    rw [List.all_cons, Bool.and_eq_true] at hall
    obtain ⟨ hok, hrest ⟩ := hall
    unfold processedOkB at hok
    cases hrf : w.readFile (joinPath i name) with
    | none => rw [hrf] at hok; exact absurd hok (by simp)
    | some data =>
      rw [hrf] at hok
      rw [Bool.and_eq_true] at hok
      obtain ⟨ hwf, hinvb ⟩ := hok
      cases hinv : w.invoke (buildRequest name data) with
      | governorErr ge => rw [hinv] at hinvb; exact absurd hinvb (by simp)
      | otherErr => rw [hinv] at hinvb; exact absurd hinvb (by simp)
      | ok text =>
        have hcons := processFiles_cons_ok w i o name data text (rest ++ l) hrf hwf hinv
        rw [List.cons_append, hcons]
        have h2 := ih l hrest
        simp only [List.map_cons, List.length_cons, List.cons_append]
        refine ⟨ h2.1, ?_, ?_, ?_ ⟩
        · rw [h2.2.1]; rfl
        · rw [h2.2.2.1]; omega
        · rw [h2.2.2.2]



/-- Unfolding of the run when a directory argument is empty. -/
theorem runProcessor_config (w : World) (i o rid : String) (h : i = "" ∨ o = "") :
    runProcessor w i o rid = ⟨ .configError, [], [], [], false ⟩ := by
  unfold runProcessor; rw [if_pos h]

/-- Unfolding of the run when the governor collaborator is unavailable. -/
theorem runProcessor_noGov (w : World) (i o rid : String)
    (hi : ¬ (i = "" ∨ o = "")) (hg : governorAvailable w = false) :
    runProcessor w i o rid = ⟨ .governorUnavailable, [], [], [], false ⟩ := by
  unfold runProcessor; rw [if_neg hi, if_pos hg]

/-- Unfolding of the run when the discovery matches no file. -/
theorem runProcessor_noFiles (w : World) (i o rid : String)
    (hi : ¬ (i = "" ∨ o = "")) (hg : governorAvailable w = true)
    (hempty : globNames w = []) :
    runProcessor w i o rid = ⟨ .noJsonFiles, [], [], [], true ⟩ := by
  unfold runProcessor
  rw [if_neg hi, if_neg (by rw [hg]; simp), if_pos (by rw [hempty]; rfl)]

/-- Unfolding of the run when the checks pass and discovery is nonempty. -/
theorem runProcessor_run (w : World) (i o rid : String)
    (hi : ¬ (i = "" ∨ o = "")) (hg : governorAvailable w = true)
    (hne : globNames w ≠ []) :
    runProcessor w i o rid =
      ⟨ (processFiles w i o (globNames w)).outcome,
        (processFiles w i o (globNames w)).outputs,
        (processFiles w i o (globNames w)).gatewayCalls,
        (processFiles w i o (globNames w)).filesRead, true ⟩ := by
  unfold runProcessor
  rw [if_neg hi, if_neg (by rw [hg]; simp), if_neg (by simp [List.isEmpty_iff, hne])]

/-- On a name with suffix .json, filepath.Ext yields exactly .json, because json holds no dot. -/
theorem filepathExt_json (name : String) (h : ".json".data.isSuffixOf name.data = true) :
    filepathExt name = ".json" := by
  rw [List.isSuffixOf_iff_suffix] at h
  obtain ⟨ t, ht ⟩ := h
  unfold filepathExt
  have hrev : name.data.reverse = ['n', 'o', 's', 'j', '.'] ++ t.reverse := by
    rw [← ht, List.reverse_append]; rfl
  rw [hrev]
  simp [List.takeWhile]

/-- The per-file loop never consults the process environment. -/
theorem processFiles_worldWithEnv (w : World) (e2 : String → Option String) (i o : String) :
    ∀ names, processFiles (worldWithEnv w e2) i o names = processFiles w i o names := by
  intro names
  induction names with
  | nil => rfl
  | cons name rest ih =>
    cases hrf : w.readFile (joinPath i name) with
    | none =>
      rw [processFiles_cons_readNone (worldWithEnv w e2) i o name rest hrf,
        processFiles_cons_readNone w i o name rest hrf]
    | some data =>
      cases hwf : w.jsonWellFormed data with
      | false =>
        rw [processFiles_cons_badJson (worldWithEnv w e2) i o name data rest hrf hwf,
          processFiles_cons_badJson w i o name data rest hrf hwf]
      | true =>
        cases hinv : w.invoke (buildRequest name data) with
        | ok text =>
          rw [processFiles_cons_ok (worldWithEnv w e2) i o name data text rest hrf hwf hinv,
            processFiles_cons_ok w i o name data text rest hrf hwf hinv, ih]
          rfl
        | governorErr ge =>
          rw [processFiles_cons_govErr (worldWithEnv w e2) i o name data ge rest hrf hwf hinv,
            processFiles_cons_govErr w i o name data ge rest hrf hwf hinv]
        | otherErr =>
          rw [processFiles_cons_otherErr (worldWithEnv w e2) i o name data rest hrf hwf hinv,
            processFiles_cons_otherErr w i o name data rest hrf hwf hinv]

/-- The run reads the environment only through the governor availability check on LLM_GOVERNOR_FUNCTION. -/
theorem runProcessor_worldWithEnv (w : World) (e2 : String → Option String) (i o rid : String)
    (hg : getEnvStr e2 "LLM_GOVERNOR_FUNCTION" = getEnvStr w.env "LLM_GOVERNOR_FUNCTION") :
    runProcessor (worldWithEnv w e2) i o rid = runProcessor w i o rid := by
  have hga : governorAvailable (worldWithEnv w e2) = governorAvailable w := by
    unfold governorAvailable worldWithEnv
    simp only [hg]
  have hglob : globNames (worldWithEnv w e2) = globNames w := rfl
  unfold runProcessor
  rw [hga]
  simp only [hglob, processFiles_worldWithEnv w e2 i o]



/-- C1: for every input directory containing N valid JSON files and no
invalid ones, a successful run produces exactly N output files, one per
input, and for each input named X.json the output is the file
X-summary.pdf in the output directory (the base name with the .json
extension removed, plus the fixed suffix -summary.pdf). -/
theorem run_success_produces_one_pdf_per_input (w : World) (inputDir outputDir runID : String)
    (N : Nat)
    (hvalid : ((globNames w).all (fileValidB w inputDir)) = true)
    (hN : (globNames w).length = N)
    (hsucc : (runProcessor w inputDir outputDir runID).outcome = .success) :
    (runProcessor w inputDir outputDir runID).outputs.length = N ∧
    (runProcessor w inputDir outputDir runID).outputs.map Prod.fst =
      (globNames w).map
        (fun name => joinPath outputDir (trimSuffix name ".json" ++ "-summary.pdf")) := by
  by_cases hi : inputDir = "" ∨ outputDir = ""
  · rw [runProcessor_config w _ _ _ hi] at hsucc; exact absurd hsucc (by simp)
  · cases hgv : governorAvailable w with
    | false => rw [runProcessor_noGov w _ _ _ hi hgv] at hsucc; exact absurd hsucc (by simp)
    | true =>
      by_cases hne : globNames w = []
      · rw [runProcessor_noFiles w _ _ _ hi hgv hne] at hsucc; exact absurd hsucc (by simp)
      · rw [runProcessor_run w _ _ _ hi hgv hne] at hsucc ⊢
        have hspec := processFiles_success_spec w inputDir outputDir (globNames w) hsucc
        have hmapeq : (globNames w).map (outPathOf outputDir) =
            (globNames w).map
              (fun name => joinPath outputDir (trimSuffix name ".json" ++ "-summary.pdf")) := by
          apply List.map_congr_left
          intro name hmem
          unfold globNames at hmem
          rw [List.mem_filter] at hmem
          unfold outPathOf baseNameOf
          rw [filepathExt_json name hmem.2]
        constructor
        · have hlen := congrArg List.length hspec.1
          simp only [List.length_map] at hlen
          rw [hlen, hN]
        · rw [hspec.1, hmapeq]

/-- Witness for C1 at a concrete world with two valid JSON files. -/
theorem run_success_produces_one_pdf_per_input_witness :
    (runProcessor wOk "/in" "/out" "run-1").outputs.length = 2 ∧
    (runProcessor wOk "/in" "/out" "run-1").outputs.map Prod.fst =
      (globNames wOk).map
        (fun name => joinPath "/out" (trimSuffix name ".json" ++ "-summary.pdf")) :=
  run_success_produces_one_pdf_per_input wOk "/in" "/out" "run-1" 2 (by rfl) (by rfl) (by rfl)



/-- C2: for every input file whose contents are not well-formed JSON, the
run terminates with the fatal validation error, and no gateway call is
made for that file: in the per-file pipeline the JSON validation happens
strictly before the gateway invocation, so the pipeline on that file
issues zero gateway requests, and a run reaching that file has issued
exactly the requests of the earlier files. -/
theorem invalid_json_fatal_no_gateway_call (w : World) (inputDir outputDir runID : String)
    (pre post : List String) (name data : String)
    (hglob : globNames w = pre ++ name :: post)
    (hpre : (pre.all (processedOkB w inputDir)) = true)
    (hread : w.readFile (joinPath inputDir name) = some data)
    (hbad : w.jsonWellFormed data = false)
    (hi : inputDir ≠ "") (ho : outputDir ≠ "") (hgov : governorAvailable w = true) :
    (runProcessor w inputDir outputDir runID).outcome = .invalidJson (joinPath inputDir name) ∧
    (runProcessor w inputDir outputDir runID).gatewayCalls.length = pre.length ∧
    (processFiles w inputDir outputDir (name :: post)).outcome =
      .invalidJson (joinPath inputDir name) ∧
    (processFiles w inputDir outputDir (name :: post)).gatewayCalls = [] := by
  have hcons := processFiles_cons_badJson w inputDir outputDir name data post hread hbad
  have hne : globNames w ≠ [] := by rw [hglob]; simp
  rw [runProcessor_run w _ _ _ (not_or.mpr ⟨hi, ho⟩) hgov hne, hglob]
  have happ := processFiles_append_ok w inputDir outputDir pre (name :: post) hpre
  refine ⟨ ?_, ?_, ?_, ?_ ⟩
  · rw [happ.1, hcons]
  · rw [happ.2.2.1, hcons]; rfl
  · rw [hcons]
  · rw [hcons]

/-- Witness for C2 at a concrete world whose second file is malformed. -/
theorem invalid_json_fatal_no_gateway_call_witness :
    (runProcessor wBad "/in" "/out" "run-1").outcome = .invalidJson "/in/b.json" ∧
    (runProcessor wBad "/in" "/out" "run-1").gatewayCalls.length = 1 ∧
    (processFiles wBad "/in" "/out" ["b.json"]).outcome = .invalidJson "/in/b.json" ∧
    (processFiles wBad "/in" "/out" ["b.json"]).gatewayCalls = [] :=
  invalid_json_fatal_no_gateway_call wBad "/in" "/out" "run-1" ["a.json"] [] "b.json" "nope"
    (by rfl) (by rfl) (by rfl) (by rfl) (by decide) (by decide) (by rfl)

/-- C3: for every run whose input directory contains zero files matching
*.json, the run terminates with the fatal discovery error and produces
zero output files: no file is read, no gateway call is made, and no PDF
is written. -/
theorem empty_discovery_fatal_zero_outputs (w : World) (inputDir outputDir runID : String)
    (hi : inputDir ≠ "") (ho : outputDir ≠ "") (hgov : governorAvailable w = true)
    (hempty : globNames w = []) :
    (runProcessor w inputDir outputDir runID).outcome = .noJsonFiles ∧
    (runProcessor w inputDir outputDir runID).outputs = [] ∧
    (runProcessor w inputDir outputDir runID).gatewayCalls = [] ∧
    (runProcessor w inputDir outputDir runID).filesRead = [] := by
  rw [runProcessor_noFiles w _ _ _ (not_or.mpr ⟨hi, ho⟩) hgov hempty]
  exact ⟨ rfl, rfl, rfl, rfl ⟩

/-- Witness for C3 at a concrete world with no .json file. -/
theorem empty_discovery_fatal_zero_outputs_witness :
    (runProcessor wEmpty "/in" "/out" "run-1").outcome = .noJsonFiles ∧
    (runProcessor wEmpty "/in" "/out" "run-1").outputs = [] ∧
    (runProcessor wEmpty "/in" "/out" "run-1").gatewayCalls = [] ∧
    (runProcessor wEmpty "/in" "/out" "run-1").filesRead = [] :=
  empty_discovery_fatal_zero_outputs wEmpty "/in" "/out" "run-1"
    (by decide) (by decide) (by rfl) (by rfl)

/-- C4: for every input file on which the gateway reports a
budget-exceeded error, the run terminates with the budget-exceeded fatal
error, no output file is produced for that input (the rendering step is
never reached: the outputs are exactly those of the earlier files), and
no remaining file of the listing is processed (nothing after the failing
file is even read). -/
theorem budget_exceeded_no_output_stops_run (w : World) (inputDir outputDir runID : String)
    (pre post : List String) (name data : String) (ge : GovernorError)
    (hglob : globNames w = pre ++ name :: post)
    (hpre : (pre.all (processedOkB w inputDir)) = true)
    (hread : w.readFile (joinPath inputDir name) = some data)
    (hwf : w.jsonWellFormed data = true)
    (hinv : w.invoke (buildRequest name data) = .governorErr ge)
    (hbud : ge.budgetExceeded = true)
    (hi : inputDir ≠ "") (ho : outputDir ≠ "") (hgov : governorAvailable w = true) :
    (runProcessor w inputDir outputDir runID).outcome = .budgetExceededErr ge.msg ∧
    (runProcessor w inputDir outputDir runID).outputs.map Prod.fst =
      pre.map (outPathOf outputDir) ∧
    (runProcessor w inputDir outputDir runID).filesRead =
      pre.map (joinPath inputDir) ++ [joinPath inputDir name] ∧
    (processFiles w inputDir outputDir (name :: post)).outputs = [] := by
  have hcons := processFiles_cons_govErr w inputDir outputDir name data ge post hread hwf hinv
  rw [if_pos hbud] at hcons
  have hne : globNames w ≠ [] := by rw [hglob]; simp
  rw [runProcessor_run w _ _ _ (not_or.mpr ⟨hi, ho⟩) hgov hne, hglob]
  have happ := processFiles_append_ok w inputDir outputDir pre (name :: post) hpre
  refine ⟨ ?_, ?_, ?_, ?_ ⟩
  · rw [happ.1, hcons]
  · rw [happ.2.1, hcons]; simp
  · rw [happ.2.2.2, hcons]
  · rw [hcons]

/-- Witness for C4 at a concrete world whose gateway reports budget exhaustion. -/
theorem budget_exceeded_no_output_stops_run_witness :
    (runProcessor wBudget "/in" "/out" "run-1").outcome =
      .budgetExceededErr "monthly budget exhausted" ∧
    (runProcessor wBudget "/in" "/out" "run-1").outputs.map Prod.fst = [] ∧
    (runProcessor wBudget "/in" "/out" "run-1").filesRead = ["/in/a.json"] ∧
    (processFiles wBudget "/in" "/out" ["a.json", "b.json"]).outputs = [] :=
  budget_exceeded_no_output_stops_run wBudget "/in" "/out" "run-1" [] ["b.json"] "a.json" "[1]"
    ⟨ "budget_exceeded", "monthly budget exhausted", true, false, [] ⟩
    (by rfl) (by rfl) (by rfl) (by rfl) (by rfl) (by rfl) (by decide) (by decide) (by rfl)



/-- C5: for every output path, title and body, the rendered report
carries the literal line Dataset Summary: followed by the title as the
first visible text element of the document, before the timestamp line,
the separator and the body. -/
theorem report_title_first_visible (now path title body : String) :
    (visibleTexts (generatePDF now path title body).2).head? =
      some ("Dataset Summary: " ++ title) ∧
    visibleTexts (generatePDF now path title body).2 =
      [ "Dataset Summary: " ++ title,
        "Generated " ++ now ++ " by Pennsieve LLM Summarizer",
        body ] := ⟨ rfl, rfl ⟩

/-- C6: on a successful run exactly one gateway request is constructed
per input file, and every request issued carries the fixed Haiku model
identifier, the fixed system instruction, the 2048 max-output-token
ceiling, and exactly one user message holding an attached document block
plus the static instruction text. -/
theorem gateway_request_fixed_shape (w : World) (inputDir outputDir runID : String)
    (hsucc : (runProcessor w inputDir outputDir runID).outcome = .success) :
    (runProcessor w inputDir outputDir runID).gatewayCalls.length = (globNames w).length ∧
    ∀ req ∈ (runProcessor w inputDir outputDir runID).gatewayCalls,
      req.model = ModelId.haiku45 ∧
      req.system = systemInstruction ∧
      req.maxTokens = 2048 ∧
      ∃ docName b64,
        req.messages =
          [ userMessage [ Block.document docName "txt" b64, Block.text attachedPrompt ] ] := by
  by_cases hi : inputDir = "" ∨ outputDir = ""
  · rw [runProcessor_config w _ _ _ hi] at hsucc; exact absurd hsucc (by simp)
  · cases hgv : governorAvailable w with
    | false => rw [runProcessor_noGov w _ _ _ hi hgv] at hsucc; exact absurd hsucc (by simp)
    | true =>
      by_cases hne : globNames w = []
      · rw [runProcessor_noFiles w _ _ _ hi hgv hne] at hsucc; exact absurd hsucc (by simp)
      · rw [runProcessor_run w _ _ _ hi hgv hne] at hsucc ⊢
        constructor
        · exact (processFiles_success_spec w inputDir outputDir (globNames w) hsucc).2
        · intro req hmem
          obtain ⟨ name, data, _, _, heq ⟩ :=
            mem_gatewayCalls_shape w inputDir outputDir (globNames w) req hmem
          subst heq
          exact ⟨ rfl, rfl, rfl, baseNameOf name, base64StdEncode data, rfl ⟩

/-- Witness for C6 at a concrete world with two valid JSON files. -/
theorem gateway_request_fixed_shape_witness :
    (runProcessor wOk "/in" "/out" "run-1").gatewayCalls.length = (globNames wOk).length ∧
    ∀ req ∈ (runProcessor wOk "/in" "/out" "run-1").gatewayCalls,
      req.model = ModelId.haiku45 ∧
      req.system = systemInstruction ∧
      req.maxTokens = 2048 ∧
      ∃ docName b64,
        req.messages =
          [ userMessage [ Block.document docName "txt" b64, Block.text attachedPrompt ] ] :=
  gateway_request_fixed_shape wOk "/in" "/out" "run-1" (by rfl)

/-- C7: mode selection is decided by the presence of the
AWS_LAMBDA_RUNTIME_API marker: when set the process dispatches the event
to the Lambda handler, otherwise it runs directly on the environment
configuration; and for equal configuration values (input dir, output
dir, run id) the two modes execute the same per-file pipeline with the
same resulting trace. -/
theorem mode_detection_and_pipeline_equivalence (w : World) (event : LambdaEvent) :
    (getEnvStr w.env "AWS_LAMBDA_RUNTIME_API" ≠ "" → mainRun w event = handleLambda w event) ∧
    (getEnvStr w.env "AWS_LAMBDA_RUNTIME_API" = "" →
      mainRun w event =
        ⟨ w.env,
          runProcessor w (getEnvStr w.env "INPUT_DIR") (getEnvStr w.env "OUTPUT_DIR")
            (getEnvStr w.env "EXECUTION_RUN_ID") ⟩) ∧
    (event.inputDir = getEnvStr w.env "INPUT_DIR" →
      event.outputDir = getEnvStr w.env "OUTPUT_DIR" →
      event.executionRunID = getEnvStr w.env "EXECUTION_RUN_ID" →
      (handleLambda w event).2 =
        runProcessor w (getEnvStr w.env "INPUT_DIR") (getEnvStr w.env "OUTPUT_DIR")
          (getEnvStr w.env "EXECUTION_RUN_ID")) := by
  refine ⟨ ?_, ?_, ?_ ⟩
  · intro h; simp [mainRun, detectMode, h]
  · intro h; simp [mainRun, detectMode, h]
  · intro h1 h2 h3
    unfold handleLambda
    rw [← h1, ← h2, ← h3]
    exact runProcessor_worldWithEnv w (setEnv w.env "EXECUTION_RUN_ID" event.executionRunID)
      event.inputDir event.outputDir event.executionRunID (by simp [setEnv, getEnvStr])

/-- Witness for C7 at a concrete world whose environment matches the event payload. -/
theorem mode_detection_and_pipeline_equivalence_witness :
    mainRun wOk exEvent = ⟨ wOk.env, runProcessor wOk "/in" "/out" "run-1" ⟩ ∧
    (handleLambda wOk exEvent).2 = runProcessor wOk "/in" "/out" "run-1" :=
  ⟨ (mode_detection_and_pipeline_equivalence wOk exEvent).2.1 (by rfl),
    (mode_detection_and_pipeline_equivalence wOk exEvent).2.2 (by rfl) (by rfl) (by rfl) ⟩

/-- C8: report rendering is idempotent on the output path: rendering a
second time with the identical title and body succeeds (rendering and
the truncating write are total in this model, as os.Create makes
overwriting not an error) and overwrites the file at that path, leaving
a valid report whose first visible text element is the title line. -/
theorem render_idempotent_overwrite (fs : OutFS) (t1 t2 path title body : String) :
    renderReport (renderReport fs t1 path title body) t2 path title body path =
      some (generatePDF t2 path title body).2 ∧
    (visibleTexts (generatePDF t2 path title body).2).head? =
      some ("Dataset Summary: " ++ title) := by
  constructor
  · unfold renderReport fsWrite; simp
  · rfl

/-- C9: if the LLM_GOVERNOR_FUNCTION environment variable is not set,
every run terminates fatally before input discovery: the directory
listing is never performed, no input file is read, and zero output files
and zero gateway calls are produced, regardless of the contents of the
input directory. -/
theorem governor_unset_fatal_before_listing (w : World) (inputDir outputDir runID : String)
    (h : w.env "LLM_GOVERNOR_FUNCTION" = none) :
    (runProcessor w inputDir outputDir runID).outcome.isFatal = true ∧
    (runProcessor w inputDir outputDir runID).listedDir = false ∧
    (runProcessor w inputDir outputDir runID).filesRead = [] ∧
    (runProcessor w inputDir outputDir runID).outputs = [] ∧
    (runProcessor w inputDir outputDir runID).gatewayCalls = [] := by
  have hg : governorAvailable w = false := by
    simp [governorAvailable, getEnvStr, h]
  by_cases hi : inputDir = "" ∨ outputDir = ""
  · rw [runProcessor_config w _ _ _ hi]; exact ⟨ rfl, rfl, rfl, rfl, rfl ⟩
  · rw [runProcessor_noGov w _ _ _ hi hg]; exact ⟨ rfl, rfl, rfl, rfl, rfl ⟩

/-- Witness for C9 at a concrete world lacking the governor reference. -/
theorem governor_unset_fatal_before_listing_witness :
    (runProcessor wNoGov "/in" "/out" "run-1").outcome.isFatal = true ∧
    (runProcessor wNoGov "/in" "/out" "run-1").listedDir = false ∧
    (runProcessor wNoGov "/in" "/out" "run-1").filesRead = [] ∧
    (runProcessor wNoGov "/in" "/out" "run-1").outputs = [] ∧
    (runProcessor wNoGov "/in" "/out" "run-1").gatewayCalls = [] :=
  governor_unset_fatal_before_listing wNoGov "/in" "/out" "run-1" (by rfl)

/-- C10: in event-invocation mode the handler mutates the process
environment before running the pipeline: it writes the execution-run
identifier of the event payload into the EXECUTION_RUN_ID environment
variable, and no other environment variable is modified by the
handler. -/
theorem handleLambda_sets_only_execution_run_id (w : World) (event : LambdaEvent) :
    (handleLambda w event).1 "EXECUTION_RUN_ID" = some event.executionRunID ∧
    ∀ k, k ≠ "EXECUTION_RUN_ID" → (handleLambda w event).1 k = w.env k := by
  constructor
  · simp [handleLambda, setEnv]
  · intro k hk; simp [handleLambda, setEnv, hk]

/-- Witness for C10 at a concrete world and event. -/
theorem handleLambda_sets_only_execution_run_id_witness :
    (handleLambda wOk exEvent).1 "EXECUTION_RUN_ID" = some "run-1" ∧
    (handleLambda wOk exEvent).1 "INPUT_DIR" = wOk.env "INPUT_DIR" :=
  ⟨ (handleLambda_sets_only_execution_run_id wOk exEvent).1,
    (handleLambda_sets_only_execution_run_id wOk exEvent).2 "INPUT_DIR" (by decide) ⟩

end Summarizer
